import Mathlib

/-!
Shallow embedding of the NFC backend complaint subsystem.

The definitions below are translated from the repository's source:
* the complaint mongoose model and its pre-save identifier hook,
* the complaint service (create / assign / assign-to-staff / resolve /
  feedback / finalize / stats / category distribution),
* the complaint controller (role-based query scoping, input validation),
* the complaint routes (express-validator chains, role gates),
* the notification helper.

Machine-level details that do not affect the verified properties are
modelled as follows: Mongo ObjectIds are `Nat`; `Date` values are `Nat`
timestamps supplied by the caller; a complaint additionally carries the
calendar year and month of its creation date (the components the
identifier hook reads off `createdAt`).
-/

namespace NFC

/-- The status enum of the complaint schema. -/
inductive Status where
  | pending
  | assigned
  | resolved
  | closed
  | escalated
  | finalResolution
deriving DecidableEq, Repr

/-- User roles (constants.js USER_ROLES). -/
inductive Role where
  | resident
  | maintenanceStaff
  | departmentAdmin
  | superAdmin
deriving DecidableEq, Repr

/-- The slice of the User model the complaint subsystem reads. `ustatus`
is the account-approval status string (queries match "approved"). -/
structure User where
  uid : Nat
  role : Role
  department : Option String := none
  ustatus : String := "approved"
  name : String := ""
deriving DecidableEq, Repr

/-- One entry of a complaint's history array. -/
structure HistoryEntry where
  hstatus : Status
  updatedBy : Nat
  timestamp : Nat
  notes : String
deriving DecidableEq, Repr

/-- The feedback subdocument set by submitFeedback. -/
structure Feedback where
  rating : Nat
  comment : String
  submittedAt : Nat
deriving DecidableEq, Repr

/-- The escalation subdocument. -/
structure Escalation where
  escalatedAt : Option Nat := none
  reason : Option String := none
  appellateAuthority : Option Nat := none
  finalResolution : Option String := none
  finalResolvedAt : Option Nat := none
deriving DecidableEq, Repr

/-- The complaint document (models/Complaint schema). `mid` is the Mongo
`_id`; `createdYear`/`createdMonth` are the calendar components of the
creation date that the identifier hook derives `YY`/`MM` from. -/
structure Complaint where
  mid : Nat
  complaintId : String
  userId : Nat
  resourceId : Nat
  category : String
  subcategory : String
  description : String
  images : List String := []
  status : Status
  assignedAgency : Option Nat := none
  assignedStaff : Option Nat := none
  assignedAt : Option Nat := none
  resolvedAt : Option Nat := none
  closedAt : Option Nat := none
  feedback : Option Feedback := none
  escalation : Escalation := {}
  resolutionNotes : Option String := none
  history : List HistoryEntry
  createdAt : Nat := 0
  createdYear : Nat := 0
  createdMonth : Nat := 1
deriving DecidableEq, Repr

/-- constants.js COMPLAINT_CATEGORIES: category name with its subcategory set. -/
def COMPLAINT_CATEGORIES : List (String × List String) :=
  [ ("Electrical",
      ["Lighting", "Power Outlets", "Fan/AC", "Electrical Appliances",
       "Switchboard", "Wiring Issues", "UPS/Inverter", "Other Electrical"]),
    ("Civil",
      ["Plumbing", "Drainage", "Wall/Ceiling", "Flooring", "Carpentry",
       "Painting", "Doors/Windows", "Water Supply", "Other Civil"]),
    ("Misc",
      ["Housekeeping", "Garden/Landscape", "Security", "Parking",
       "Facilities", "Pest Control", "Internet/Network", "Common Area",
       "Other"]) ]

/-- The category names, as listed in the route's isIn check. -/
def categoryNames : List String := ["Electrical", "Civil", "Misc"]

/-- The subcategory set of a category (empty for unknown categories). -/
def subcategoriesOf (cat : String) : List String :=
  match COMPLAINT_CATEGORIES.find? (fun p => p.1 == cat) with
  | some p => p.2
  | none => []

/- ### User lookups mirroring the service's User.findOne / User.find queries -/

/-- `User.findOne({_id: agencyId, role: {$in:[departmentAdmin, maintenanceStaff]}, status:"approved"})` -/
def findApprovedAgency (users : List User) (agencyId : Nat) : Option User :=
  users.find? (fun u =>
    u.uid == agencyId
      && (u.role == Role.departmentAdmin || u.role == Role.maintenanceStaff)
      && u.ustatus == "approved")

/-- `User.findOne({_id: staffId, role:"maintenanceStaff", status:"approved"})` -/
def findApprovedStaff (users : List User) (staffId : Nat) : Option User :=
  users.find? (fun u =>
    u.uid == staffId && u.role == Role.maintenanceStaff && u.ustatus == "approved")

/-- `User.findOne({role:"superAdmin", status:"approved"})` — the appellate
authority lookup: the first approved superAdmin in natural order. -/
def firstApprovedSuperAdmin (users : List User) : Option User :=
  users.find? (fun u => u.role == Role.superAdmin && u.ustatus == "approved")

/-- `User.find({role:"superAdmin", status:"approved"})` -/
def approvedSuperAdmins (users : List User) : List User :=
  users.filter (fun u => u.role == Role.superAdmin && u.ustatus == "approved")

/-- `User.find({role:"departmentAdmin", department: cat, status:"approved"})` -/
def approvedDeptAdmins (users : List User) (cat : String) : List User :=
  users.filter (fun u =>
    u.role == Role.departmentAdmin && u.department == some cat && u.ustatus == "approved")

/- ### Store primitives (Complaint.findById / save inside a transaction) -/

/-- `Complaint.findById` over the store. -/
def findById (db : List Complaint) (mid : Nat) : Option Complaint :=
  db.find? (fun c => c.mid == mid)

/-- Persisting a mutated document: replace the document with the same `_id`. -/
def updateById (db : List Complaint) (c' : Complaint) : List Complaint :=
  db.map (fun c => if c.mid == c'.mid then c' else c)

/- ### Notification helper (utils/notificationHelper.js) -/

/-- `sendNotification`: wraps the transport in try/catch and returns a
Boolean — `true` on success, `false` when the transport fails. It never
throws, so a notification failure cannot reach a caller's catch block.
`tok` stands for the underlying transport outcome. -/
def sendNotification (tok : Bool) (_userId : Option Nat) (_title _message _etype : String)
    (_referenceId : Option Nat) : Bool :=
  if tok then true else false

/-- Observable events of one service call, in program order. `notify`
records the value `sendNotification` returned. `commitTx` is
`session.commitTransaction()`; `save` is `complaint.save({session})`. -/
inductive Event where
  | save
  | notify (delivered : Bool) (recipient : Option Nat) (title : String)
  | commitTx
deriving DecidableEq, Repr

/-- Outcome of one service call: the thrown-or-returned value, the store
after the transaction committed or aborted, and the event trace. -/
structure OpOutcome where
  result : Except String Complaint
  db : List Complaint
  events : List Event
deriving Repr

/- ### Identifier generation (complaintSchema.pre("save")) -/

/-- `String.prototype.padStart(w, ch)`: left-pad to width `w` (no
truncation when already at least `w` long). -/
def padStart (s : String) (w : Nat) (ch : Char) : String :=
  String.mk (List.replicate (w - s.length) ch) ++ s

/-- `countDocuments({createdAt: within month (y, m)})`: the number of
complaints created in calendar month `(y, m)`. -/
def monthCount (db : List Complaint) (y m : Nat) : Nat :=
  (db.filter (fun c => c.createdYear == y && c.createdMonth == m)).length

/-- The hook's identifier: `CMP-YY-MM-NNNN` where `YY` is the two-digit
year, `MM` the two-digit month, `NNNN` the same-month complaint count
plus one padded to 4 digits. (`toString(y).slice(-2)` equals the
two-digit padding of `y % 100` for any four-digit year.) -/
def mkComplaintId (y m cnt : Nat) : String :=
  "CMP-" ++ padStart (Nat.repr (y % 100)) 2 '0' ++ "-"
        ++ padStart (Nat.repr m) 2 '0' ++ "-"
        ++ padStart (Nat.repr (cnt + 1)) 4 '0'

/-- The document `new Complaint({...})` constructs, combined with the
model's pre-save identifier hook (which runs on this new document before
it is persisted). -/
def mkNewComplaint (db : List Complaint) (resourceId : Nat)
    (category subcategory description : String) (images : List String)
    (user : User) (midNew y m now : Nat) : Complaint :=
  { mid := midNew
    complaintId := mkComplaintId y m (monthCount db y m)
    userId := user.uid
    resourceId := resourceId
    category := category
    subcategory := subcategory
    description := description
    images := images
    status := Status.pending
    history := [{ hstatus := Status.pending, updatedBy := user.uid,
                  timestamp := now, notes := "Complaint submitted" }]
    createdAt := now
    createdYear := y
    createdMonth := m }

/- ### Service operations (services/complaintService.js) -/

/-- `createComplaint(complaintData, user)` together with the model's
pre-save hook. `y`/`m`/`now` are the creation date's components, `midNew`
the fresh `_id`. Validation of the body happens in the route/controller
(`validateCreate` below); the service itself only builds and saves the
document and notifies the audience. -/
def svcCreateComplaint (users : List User) (db : List Complaint)
    (resourceId : Nat) (category subcategory description : String)
    (images : List String) (user : User) (midNew y m now : Nat) (tok : Bool) :
    OpOutcome :=
  let c : Complaint :=
    mkNewComplaint db resourceId category subcategory description images user midNew y m now
  let audience : List User :=
    if category = "Misc" then approvedSuperAdmins users
    else approvedDeptAdmins users category
  let notifies : List Event := audience.map (fun a =>
    Event.notify
      (sendNotification tok (some a.uid) "New Complaint Received"
        ("A new " ++ category ++ " complaint has been submitted: " ++ c.complaintId)
        "complaint" (some c.mid))
      (some a.uid) "New Complaint Received")
  { result := Except.ok c
    db := db ++ [c]
    events := Event.save :: notifies ++ [Event.commitTx] }

/-- `assignComplaint(complaintId, agencyId, userId)`. No status
precondition appears in the source: any found complaint is moved to
`assigned` once the agency resolves. -/
def svcAssignComplaint (users : List User) (db : List Complaint)
    (complaintId agencyId userId now : Nat) (tok : Bool) : OpOutcome :=
  match findById db complaintId with
  | none => { result := Except.error "Complaint not found", db := db, events := [] }
  | some complaint =>
    match findApprovedAgency users agencyId with
    | none => { result := Except.error "Maintenance agency not found", db := db, events := [] }
    | some agency =>
      let c' : Complaint :=
        { complaint with
          assignedAgency := some agencyId
          status := Status.assigned
          assignedAt := some now
          history := complaint.history ++
            [{ hstatus := Status.assigned, updatedBy := userId, timestamp := now,
               notes := "Assigned to " ++ agency.name }] }
      { result := Except.ok c'
        db := updateById db c'
        events :=
          [ Event.save,
            Event.notify
              (sendNotification tok (some agencyId) "Complaint Assigned"
                ("A complaint " ++ c'.complaintId ++ " has been assigned to you")
                "complaint" (some c'.mid))
              (some agencyId) "Complaint Assigned",
            Event.notify
              (sendNotification tok (some complaint.userId) "Complaint Update"
                ("Your complaint " ++ c'.complaintId ++ " has been assigned to maintenance staff")
                "complaint" (some c'.mid))
              (some complaint.userId) "Complaint Update",
            Event.commitTx ] }

/-- `assignToStaff(complaintId, staffId, agencyId)`. The source checks
only that the complaint exists and the staff resolves; it does not read
`assignedAgency` or the status. The history entry repeats the current
status. -/
def svcAssignToStaff (users : List User) (db : List Complaint)
    (complaintId staffId agencyId now : Nat) (tok : Bool) : OpOutcome :=
  match findById db complaintId with
  | none => { result := Except.error "Complaint not found", db := db, events := [] }
  | some complaint =>
    match findApprovedStaff users staffId with
    | none => { result := Except.error "Maintenance staff not found", db := db, events := [] }
    | some staff =>
      let c' : Complaint :=
        { complaint with
          assignedStaff := some staffId
          history := complaint.history ++
            [{ hstatus := complaint.status, updatedBy := agencyId, timestamp := now,
               notes := "Assigned to staff: " ++ staff.name }] }
      { result := Except.ok c'
        db := updateById db c'
        events :=
          [ Event.save,
            Event.notify
              (sendNotification tok (some staffId) "Complaint Assigned"
                ("A complaint " ++ c'.complaintId ++ " has been assigned to you")
                "complaint" (some c'.mid))
              (some staffId) "Complaint Assigned",
            Event.commitTx ] }

/-- `resolveComplaint(complaintId, resolutionNotes, userId)`: requires
status `assigned`. -/
def svcResolveComplaint (db : List Complaint)
    (complaintId : Nat) (resolutionNotes : String) (userId now : Nat) (tok : Bool) :
    OpOutcome :=
  match findById db complaintId with
  | none => { result := Except.error "Complaint not found", db := db, events := [] }
  | some complaint =>
    if complaint.status ≠ Status.assigned then
      { result := Except.error "Complaint must be in assigned status to be resolved",
        db := db, events := [] }
    else
      let c' : Complaint :=
        { complaint with
          status := Status.resolved
          resolvedAt := some now
          resolutionNotes := some resolutionNotes
          history := complaint.history ++
            [{ hstatus := Status.resolved, updatedBy := userId, timestamp := now,
               notes := resolutionNotes }] }
      { result := Except.ok c'
        db := updateById db c'
        events :=
          [ Event.save,
            Event.notify
              (sendNotification tok (some complaint.userId) "Complaint Resolved"
                ("Your complaint " ++ c'.complaintId ++ " has been resolved. Please provide feedback.")
                "complaint" (some c'.mid))
              (some complaint.userId) "Complaint Resolved",
            Event.commitTx ] }

/-- The `${comment || "None"}` fragment of the feedback history notes. -/
def commentOrNone (comment : String) : String :=
  if comment = "" then "None" else comment

/-- `submitFeedback(complaintId, rating, comment, userId)`: requires
status `resolved`; rating ≥ 3 closes, otherwise escalates with the
escalation subdocument replaced wholesale and the appellate authority set
when an approved superAdmin exists. Notifications precede the save in
this operation. -/
def svcSubmitFeedback (users : List User) (db : List Complaint)
    (complaintId : Nat) (rating : Nat) (comment : String) (userId now : Nat)
    (tok : Bool) : OpOutcome :=
  match findById db complaintId with
  | none => { result := Except.error "Complaint not found", db := db, events := [] }
  | some complaint =>
    if complaint.status ≠ Status.resolved then
      { result := Except.error "Complaint must be resolved before submitting feedback",
        db := db, events := [] }
    else
      let cf : Complaint :=
        { complaint with feedback := some { rating := rating, comment := comment, submittedAt := now } }
      if rating ≥ 3 then
        let c' : Complaint :=
          { cf with
            status := Status.closed
            closedAt := some now
            history := cf.history ++
              [{ hstatus := Status.closed, updatedBy := userId, timestamp := now,
                 notes := "User satisfied with resolution. Rating: " ++ Nat.repr rating
                   ++ "/5, Comment: " ++ commentOrNone comment }] }
        { result := Except.ok c'
          db := updateById db c'
          events :=
            [ Event.notify
                (sendNotification tok complaint.assignedAgency "Complaint Closed"
                  ("Complaint " ++ c'.complaintId ++ " has been closed with rating: "
                    ++ Nat.repr rating ++ "/5")
                  "complaint" (some c'.mid))
                complaint.assignedAgency "Complaint Closed",
              Event.save, Event.commitTx ] }
      else
        let reason : String :=
          if comment = "" then "User not satisfied with resolution" else comment
        let hist : List HistoryEntry := cf.history ++
          [{ hstatus := Status.escalated, updatedBy := userId, timestamp := now,
             notes := "User not satisfied with resolution. Rating: " ++ Nat.repr rating
               ++ "/5, Comment: " ++ commentOrNone comment }]
        match firstApprovedSuperAdmin users with
        | some authority =>
          let c' : Complaint :=
            { cf with
              status := Status.escalated
              escalation := { escalatedAt := some now, reason := some reason,
                              appellateAuthority := some authority.uid }
              history := hist }
          { result := Except.ok c'
            db := updateById db c'
            events :=
              [ Event.notify
                  (sendNotification tok (some authority.uid) "Complaint Escalated"
                    ("Complaint " ++ c'.complaintId
                      ++ " has been escalated due to unsatisfactory resolution")
                    "complaint" (some c'.mid))
                  (some authority.uid) "Complaint Escalated",
                Event.notify
                  (sendNotification tok complaint.assignedAgency "Complaint Escalated"
                    ("Complaint " ++ c'.complaintId ++ " has been escalated. Rating: "
                      ++ Nat.repr rating ++ "/5")
                    "complaint" (some c'.mid))
                  complaint.assignedAgency "Complaint Escalated",
                Event.save, Event.commitTx ] }
        | none =>
          let c' : Complaint :=
            { cf with
              status := Status.escalated
              escalation := { escalatedAt := some now, reason := some reason }
              history := hist }
          { result := Except.ok c'
            db := updateById db c'
            events :=
              [ Event.notify
                  (sendNotification tok complaint.assignedAgency "Complaint Escalated"
                    ("Complaint " ++ c'.complaintId ++ " has been escalated. Rating: "
                      ++ Nat.repr rating ++ "/5")
                    "complaint" (some c'.mid))
                  complaint.assignedAgency "Complaint Escalated",
                Event.save, Event.commitTx ] }

/-- `finalizeComplaint(complaintId, resolution, authorityId)`: requires
status `escalated`. -/
def svcFinalizeComplaint (db : List Complaint)
    (complaintId : Nat) (resolution : String) (authorityId now : Nat) (tok : Bool) :
    OpOutcome :=
  match findById db complaintId with
  | none => { result := Except.error "Complaint not found", db := db, events := [] }
  | some complaint =>
    if complaint.status ≠ Status.escalated then
      { result := Except.error "Only escalated complaints can receive final resolution",
        db := db, events := [] }
    else
      let c' : Complaint :=
        { complaint with
          status := Status.finalResolution
          escalation := { complaint.escalation with
                          finalResolution := some resolution
                          finalResolvedAt := some now }
          closedAt := some now
          history := complaint.history ++
            [{ hstatus := Status.finalResolution, updatedBy := authorityId, timestamp := now,
               notes := "Final resolution: " ++ resolution }] }
      { result := Except.ok c'
        db := updateById db c'
        events :=
          [ Event.save,
            Event.notify
              (sendNotification tok (some complaint.userId) "Final Resolution"
                ("Your escalated complaint " ++ c'.complaintId
                  ++ " has received final resolution from the appellate authority")
                "complaint" (some c'.mid))
              (some complaint.userId) "Final Resolution",
            Event.notify
              (sendNotification tok complaint.assignedAgency "Final Resolution"
                ("Escalated complaint " ++ c'.complaintId
                  ++ " has received final resolution from the appellate authority")
                "complaint" (some c'.mid))
              complaint.assignedAgency "Final Resolution",
            Event.commitTx ] }

/- ### Controller layer: role-based query scoping (controllers/complaintController.js) -/

/-- The query-string filters a caller may supply (`req.query`). -/
structure QueryFilters where
  userId : Option Nat := none
  resourceId : Option Nat := none
  category : Option String := none
  qstatus : Option Status := none
  dateFrom : Option Nat := none
  dateTo : Option Nat := none
deriving DecidableEq, Repr

/-- The effective filters handed to the service. -/
structure EffFilters where
  userId : Option Nat := none
  category : Option String := none
  fstatus : Option Status := none
  resourceId : Option Nat := none
  assignedStaff : Option Nat := none
  dateFrom : Option Nat := none
  dateTo : Option Nat := none
deriving DecidableEq, Repr

/-- The common tail of each scoping function: resourceId, status and the
date range (dates only when both bounds are supplied). -/
def withCommonFilters (f : EffFilters) (q : QueryFilters) (useStatus : Bool) : EffFilters :=
  { f with
    resourceId := q.resourceId
    fstatus := if useStatus then q.qstatus else none
    dateFrom := if q.dateFrom.isSome && q.dateTo.isSome then q.dateFrom else none
    dateTo := if q.dateFrom.isSome && q.dateTo.isSome then q.dateTo else none }

/-- `getComplaints` controller scoping: resident → own userId forced;
departmentAdmin → category forced to own department, may add userId;
maintenanceStaff → assignedStaff forced; superAdmin → free. -/
def listScope (u : User) (q : QueryFilters) : EffFilters :=
  let base : EffFilters :=
    match u.role with
    | Role.resident => { userId := some u.uid }
    | Role.departmentAdmin => { userId := q.userId, category := u.department }
    | Role.maintenanceStaff => { assignedStaff := some u.uid }
    | Role.superAdmin => { userId := q.userId, category := q.category }
  withCommonFilters base q true

/-- `getComplaintStats` controller scoping: departmentAdmin → category
forced, may add userId; resident → own userId forced; every other role →
free. (Status is not a stats filter.) -/
def statsScope (u : User) (q : QueryFilters) : EffFilters :=
  let base : EffFilters :=
    match u.role with
    | Role.departmentAdmin => { userId := q.userId, category := u.department }
    | Role.resident => { userId := some u.uid }
    | _ => { userId := q.userId, category := q.category }
  withCommonFilters base q false

/-- `getCategoryDistribution` controller scoping: resident → own userId
forced; every other role → may add userId. The controller never reads a
category query parameter here and never forces one. -/
def distScope (u : User) (q : QueryFilters) : EffFilters :=
  let base : EffFilters :=
    match u.role with
    | Role.resident => { userId := some u.uid }
    | _ => { userId := q.userId }
  withCommonFilters base q false

/- ### Service query predicates -/

/-- The Mongo query built by the service's `getComplaints`: userId,
category, status, resourceId and the date range are applied.
(`filters.assignedStaff` is not read by the service.) -/
def listMatch (f : EffFilters) (c : Complaint) : Bool :=
  (match f.userId with | some v => c.userId == v | none => true)
    && (match f.category with | some v => c.category == v | none => true)
    && (match f.fstatus with | some v => c.status == v | none => true)
    && (match f.resourceId with | some v => c.resourceId == v | none => true)
    && (match f.dateFrom, f.dateTo with
        | some a, some b => a ≤ c.createdAt && c.createdAt ≤ b
        | _, _ => true)

/-- The `$match` stage of `getComplaintStats`: userId, category,
resourceId, date range. -/
def statsMatch (f : EffFilters) (c : Complaint) : Bool :=
  (match f.userId with | some v => c.userId == v | none => true)
    && (match f.category with | some v => c.category == v | none => true)
    && (match f.resourceId with | some v => c.resourceId == v | none => true)
    && (match f.dateFrom, f.dateTo with
        | some a, some b => a ≤ c.createdAt && c.createdAt ≤ b
        | _, _ => true)

/-- The `$match` stage of `getCategoryDistribution`: userId, resourceId,
date range — no category, no status. -/
def distMatch (f : EffFilters) (c : Complaint) : Bool :=
  (match f.userId with | some v => c.userId == v | none => true)
    && (match f.resourceId with | some v => c.resourceId == v | none => true)
    && (match f.dateFrom, f.dateTo with
        | some a, some b => a ≤ c.createdAt && c.createdAt ≤ b
        | _, _ => true)

/-- The documents a caller's `GET /complaints` returns (pagination aside:
the page is a sublist of this filtered list). -/
def listComplaintsFor (u : User) (q : QueryFilters) (db : List Complaint) : List Complaint :=
  db.filter (listMatch (listScope u q))

/-- The documents feeding a caller's stats aggregation. -/
def statsDocsFor (u : User) (q : QueryFilters) (db : List Complaint) : List Complaint :=
  db.filter (statsMatch (statsScope u q))

/-- The `$group by $category` stage over the matched documents. -/
def categoryDistribution (f : EffFilters) (db : List Complaint) : List (String × Nat) :=
  let docs := db.filter (distMatch f)
  ((docs.map Complaint.category).eraseDups).map
    (fun cat => (cat, (docs.filter (fun c => c.category == cat)).length))

/-- A caller's `GET /complaints/category-distribution` result. -/
def distributionFor (u : User) (q : QueryFilters) (db : List Complaint) : List (String × Nat) :=
  categoryDistribution (distScope u q) db

/- ### Route/controller validation for complaint creation -/

/-- The request body of `POST /complaints`. `resourceId = none` models an
absent field. -/
structure CreateBody where
  resourceId : Option Nat := none
  category : String
  subcategory : String
  description : String
  images : List String := []
deriving DecidableEq, Repr

/-- The express-validator chain of `POST /complaints` plus the
controller's own image-count check: resourceId present, category in the
fixed list, subcategory non-empty, description non-empty and at most
1000 characters, at most 2 images. No check relates the subcategory to
the chosen category's subcategory set. -/
def validateCreate (b : CreateBody) : Except String Unit :=
  if b.resourceId.isNone then Except.error "Resource ID is required"
  else if ¬ (b.category ∈ categoryNames) then Except.error "Category is required"
  else if b.subcategory = "" then Except.error "Subcategory is required"
  else if b.description = "" ∨ b.description.length > 1000 then
    Except.error "Description is required and should not exceed 1000 characters"
  else if b.images.length > 2 then Except.error "Maximum 2 images allowed per complaint"
  else Except.ok ()

/-- `POST /complaints` end to end: validation, then the service create.
A validation failure creates nothing and has no side effect. -/
def routeCreateComplaint (users : List User) (db : List Complaint)
    (b : CreateBody) (user : User) (midNew y m now : Nat) (tok : Bool) : OpOutcome :=
  match validateCreate b with
  | Except.error e => { result := Except.error e, db := db, events := [] }
  | Except.ok _ =>
    svcCreateComplaint users db (b.resourceId.getD 0) b.category b.subcategory
      b.description b.images user midNew y m now tok

/-- Modelled from the spec: the `checkRole` middleware
(src/middleware/roleCheck.js is not part of the provided sources; the
routes invoke it as `checkRole(...roles)`). Per the spec's authorization
design it admits exactly the callers whose role is among the listed
roles and rejects everyone else with `Forbidden`. -/
def checkRole (allowed : List Role) (u : User) : Bool :=
  allowed.contains u.role

/-- `PUT /complaints/:id/feedback` end to end: the route's
`checkRole("resident")` gate and rating bounds, the controller's rating
re-check, then the service call with `req.user._id` as the actor. No
ownership comparison appears anywhere on this path. -/
def routeSubmitFeedback (users : List User) (db : List Complaint)
    (complaintId : Nat) (rating : Nat) (comment : String) (u : User) (now : Nat)
    (tok : Bool) : OpOutcome :=
  if ¬ checkRole [Role.resident] u then
    { result := Except.error "Forbidden", db := db, events := [] }
  else if rating < 1 ∨ rating > 5 then
    { result := Except.error "Rating must be between 1 and 5", db := db, events := [] }
  else
    svcSubmitFeedback users db complaintId rating comment u.uid now tok

/- ### Stats aggregation result (the `$group` stage of getComplaintStats) -/

/-- The aggregate produced by `getComplaintStats`. -/
structure Stats where
  total : Nat
  pending : Nat
  assigned : Nat
  resolved : Nat
  closed : Nat
  escalated : Nat
  finalResolution : Nat
  avgRating : Option ℚ
deriving DecidableEq, Repr

/-- Number of documents with a given status. -/
def countStatus (docs : List Complaint) (s : Status) : Nat :=
  (docs.filter (fun c => c.status == s)).length

/-- The `$group` stage over the matched documents (`$avg` skips documents
without a rating and is null when none is rated). -/
def computeStats (docs : List Complaint) : Stats :=
  let ratings : List Nat := docs.filterMap (fun c => c.feedback.map Feedback.rating)
  { total := docs.length
    pending := countStatus docs Status.pending
    assigned := countStatus docs Status.assigned
    resolved := countStatus docs Status.resolved
    closed := countStatus docs Status.closed
    escalated := countStatus docs Status.escalated
    finalResolution := countStatus docs Status.finalResolution
    avgRating := if ratings.isEmpty then none
                 else some ((ratings.sum : ℚ) / (ratings.length : ℚ)) }

/-- A caller's `GET /complaints/stats` result. -/
def statsFor (u : User) (q : QueryFilters) (db : List Complaint) : Stats :=
  computeStats (statsDocsFor u q db)

/- ### Creation sequences (for identifier uniqueness) -/

/-- One complaint-creation request: the body fields plus the creation
date's components and the fresh `_id`. -/
structure CreateReq where
  resourceId : Nat
  category : String
  subcategory : String
  description : String
  images : List String := []
  user : User
  mid : Nat
  cyear : Nat
  cmonth : Nat
  ctime : Nat
  tok : Bool := true
deriving Repr

/-- The store after a sequence of complaint creations, in order, starting
from a given store (each step is `svcCreateComplaint`, which appends the
new document). -/
def buildDb (users : List User) (db : List Complaint) : List CreateReq → List Complaint
  | [] => db
  | r :: rs =>
    buildDb users
      (svcCreateComplaint users db r.resourceId r.category r.subcategory r.description
        r.images r.user r.mid r.cyear r.cmonth r.ctime r.tok).db
      rs

/- ### Decimal-digit helpers (to reason about `String(n)` and padStart) -/

/-- Value of a decimal digit character. -/
def digitVal (c : Char) : Nat := c.toNat - 48

/-- Decimal value of a character list (most significant first). -/
def listVal (l : List Char) : Nat := l.foldl (fun a c => 10 * a + digitVal c) 0

/-- Decimal value of a string. -/
def strVal (s : String) : Nat := listVal s.data

/-- Structural decimal-digit list of a natural number (what
`Nat.toDigitsCore` computes with enough fuel). -/
def natDigits (n : Nat) : List Char :=
  if _h : n < 10 then [Nat.digitChar n]
  else natDigits (n / 10) ++ [Nat.digitChar (n % 10)]
decreasing_by
  exact Nat.div_lt_self (by omega) (by omega)

/- ### History-actor erasure (for the feedback noninterference statement) -/

/-- Erase the actor references of a complaint (the only place the
feedback caller's identity is recorded). -/
def scrubActors (c : Complaint) : Complaint :=
  { c with history := c.history.map (fun h => { h with updatedBy := 0 }) }

/- ### Small auxiliary definitions used by the statements -/

/-- Number of history entries carrying a given status. -/
def countHist (h : List HistoryEntry) (s : Status) : Nat :=
  (h.filter (fun e => e.hstatus == s)).length

/-- Whether an event is a notification dispatch. -/
def Event.isNotify : Event → Bool
  | Event.notify _ _ _ => true
  | _ => false

/-- Whether an event is the transaction commit. -/
def Event.isCommit : Event → Bool
  | Event.commitTx => true
  | _ => false

/-- Decides "every notification dispatch happens strictly after the
commit": no notify event may occur before the first commit event. -/
def dispatchStrictlyAfterCommit (evs : List Event) : Bool :=
  (evs.takeWhile (fun e => ¬ e.isCommit)).all (fun e => ¬ e.isNotify)

/-- Well-formedness of a store produced by the creation sequence: months
are two-digit, every identifier has the hook's shape with an index below
the month's count, identifiers are pairwise distinct, and two-digit years
are unambiguous within the store. -/
def GoodDb (db : List Complaint) : Prop :=
  (∀ c ∈ db, c.createdMonth < 100)
    ∧ (∀ c ∈ db, ∃ k, k < monthCount db c.createdYear c.createdMonth
        ∧ c.complaintId = mkComplaintId c.createdYear c.createdMonth k)
    ∧ List.Pairwise (fun a b => a.complaintId ≠ b.complaintId) db
    ∧ (∀ a ∈ db, ∀ b ∈ db,
        a.createdYear % 100 = b.createdYear % 100 → a.createdYear = b.createdYear)

/- ### Concrete fixtures for witnesses and counterexamples -/

/-- An approved superAdmin. -/
def superU : User := { uid := 1, role := Role.superAdmin, name := "Root" }

/-- An approved departmentAdmin of the Electrical department. -/
def elecAdmin : User :=
  { uid := 2, role := Role.departmentAdmin, department := some "Electrical", name := "ElecAdmin" }

/-- An approved maintenanceStaff member. -/
def staffU : User := { uid := 3, role := Role.maintenanceStaff, name := "Staffer" }

/-- A resident (reporter of the fixture complaint). -/
def residentA : User := { uid := 4, role := Role.resident, name := "Alice" }

/-- Another resident, unrelated to the fixture complaint. -/
def residentB : User := { uid := 5, role := Role.resident, name := "Bob" }

/-- The fixture user directory. -/
def usersFix : List User := [superU, elecAdmin, staffU, residentA, residentB]

/-- A pending complaint reported by residentA, not yet assigned. -/
def pendingC : Complaint :=
  { mid := 100, complaintId := "CMP-25-07-0001", userId := 4, resourceId := 50,
    category := "Electrical", subcategory := "Lighting", description := "light broken",
    status := Status.pending,
    history := [{ hstatus := Status.pending, updatedBy := 4, timestamp := 0,
                  notes := "Complaint submitted" }],
    createdAt := 0, createdYear := 2025, createdMonth := 7 }

/-- The fixture complaint after assignment to the Electrical admin. -/
def assignedC : Complaint :=
  { pendingC with
    status := Status.assigned
    assignedAgency := some 2
    assignedAt := some 1
    history := pendingC.history ++
      [{ hstatus := Status.assigned, updatedBy := 1, timestamp := 1,
         notes := "Assigned to ElecAdmin" }] }

/-- The fixture complaint after resolution. -/
def resolvedC : Complaint :=
  { assignedC with
    status := Status.resolved
    resolvedAt := some 2
    resolutionNotes := some "fixed"
    history := assignedC.history ++
      [{ hstatus := Status.resolved, updatedBy := 3, timestamp := 2, notes := "fixed" }] }

/-- The fixture complaint in the terminal `closed` state. -/
def closedC : Complaint :=
  { resolvedC with status := Status.closed, closedAt := some 3 }

/-- A Civil-category complaint reported by residentB. -/
def civilC : Complaint :=
  { mid := 101, complaintId := "CMP-25-07-0002", userId := 5, resourceId := 51,
    category := "Civil", subcategory := "Plumbing", description := "leak",
    status := Status.pending,
    history := [{ hstatus := Status.pending, updatedBy := 5, timestamp := 0,
                  notes := "Complaint submitted" }],
    createdAt := 0, createdYear := 2025, createdMonth := 7 }

/-- First creation request of July 2025. -/
def reqA : CreateReq :=
  { resourceId := 50
    category := "Electrical"
    subcategory := "Lighting"
    description := "d1"
    user := residentA
    mid := 200
    cyear := 2025
    cmonth := 7
    ctime := 0 }

/-- Second creation request of July 2025. -/
def reqB : CreateReq :=
  { resourceId := 51
    category := "Civil"
    subcategory := "Plumbing"
    description := "d2"
    user := residentB
    mid := 201
    cyear := 2025
    cmonth := 7
    ctime := 1 }

/-- A creation request of August 2025. -/
def reqC : CreateReq :=
  { resourceId := 52
    category := "Misc"
    subcategory := "Parking"
    description := "d3"
    user := residentA
    mid := 202
    cyear := 2025
    cmonth := 8
    ctime := 2 }

/-- A fully valid creation body. -/
def validBody : CreateBody :=
  { resourceId := some 50
    category := "Electrical"
    subcategory := "Lighting"
    description := "light broken" }

/-- A creation body whose subcategory belongs to a different category's
set ("Plumbing" is Civil, not Electrical). -/
def crossBody : CreateBody :=
  { resourceId := some 50
    category := "Electrical"
    subcategory := "Plumbing"
    description := "light broken" }

/-! ## Helper lemmas: decimal strings, padding, identifier injectivity -/

theorem digitVal_digitChar {n : Nat} (h : n < 10) : digitVal (Nat.digitChar n) = n := by
  interval_cases n <;> decide

theorem natDigits_of_lt {n : Nat} (h : n < 10) : natDigits n = [Nat.digitChar n] := by
  conv_lhs => rw [natDigits]
  simp [h]

theorem natDigits_of_ge {n : Nat} (h : ¬ n < 10) :
    natDigits n = natDigits (n / 10) ++ [Nat.digitChar (n % 10)] := by
  conv_lhs => rw [natDigits]
  simp [h]

theorem toDigitsCore_eq_natDigits (fuel : Nat) :
    ∀ n ds, n < fuel → Nat.toDigitsCore 10 fuel n ds = natDigits n ++ ds := by
  induction fuel with
  | zero => intro n ds h; omega
  | succ fuel ih =>
    intro n ds h
    rw [Nat.toDigitsCore]
    by_cases h10 : n / 10 = 0
    · have hn : n < 10 := by omega
      simp [h10, natDigits_of_lt hn, Nat.mod_eq_of_lt hn]
    · have hge : ¬ n < 10 := by omega
      have hlt : n / 10 < fuel := by
        have := Nat.div_lt_self (show 0 < n by omega) (show 1 < 10 by omega)
        omega
      simp only [h10, if_false]
      rw [ih (n / 10) _ hlt, natDigits_of_ge hge, List.append_assoc]
      rfl

theorem repr_data (n : Nat) : (Nat.repr n).data = natDigits n := by
  show (Nat.toDigits 10 n).asString.data = natDigits n
  rw [Nat.toDigits, toDigitsCore_eq_natDigits (n + 1) n [] (Nat.lt_succ_self n)]
  simp [List.asString]

theorem listVal_cons_zero (l : List Char) : listVal ('0' :: l) = listVal l := by
  have h0 : digitVal '0' = 0 := by decide
  simp [listVal, List.foldl_cons, h0]

theorem listVal_replicate_zero (k : Nat) (l : List Char) :
    listVal (List.replicate k '0' ++ l) = listVal l := by
  induction k with
  | zero => simp
  | succ k ih => rw [List.replicate_succ, List.cons_append, listVal_cons_zero]; exact ih

theorem listVal_append_digit (xs : List Char) (c : Char) :
    listVal (xs ++ [c]) = 10 * listVal xs + digitVal c := by
  simp [listVal, List.foldl_append]

theorem listVal_natDigits (n : Nat) : listVal (natDigits n) = n := by
  induction n using Nat.strong_induction_on with
  | _ n ih =>
    by_cases h : n < 10
    · rw [natDigits_of_lt h]
      simp [listVal, digitVal_digitChar h]
    · have hdiv : n / 10 < n := Nat.div_lt_self (by omega) (by omega)
      rw [natDigits_of_ge h, listVal_append_digit, ih (n / 10) hdiv,
        digitVal_digitChar (Nat.mod_lt _ (by omega))]
      omega

theorem padStart_data (s : String) (w : Nat) (ch : Char) :
    (padStart s w ch).data = List.replicate (w - s.length) ch ++ s.data := by
  simp [padStart]

theorem padRepr_data (n w : Nat) :
    (padStart (Nat.repr n) w '0').data
      = List.replicate (w - (natDigits n).length) '0' ++ natDigits n := by
  rw [padStart_data, repr_data]
  have : (Nat.repr n).length = (natDigits n).length := by
    show (Nat.repr n).data.length = _
    rw [repr_data]
  rw [this]

theorem listVal_padRepr (n w : Nat) :
    listVal (padStart (Nat.repr n) w '0').data = n := by
  rw [padRepr_data, listVal_replicate_zero, listVal_natDigits]

theorem padRepr_data_inj {a b w w' : Nat}
    (h : (padStart (Nat.repr a) w '0').data = (padStart (Nat.repr b) w' '0').data) :
    a = b := by
  have := congrArg listVal h
  rwa [listVal_padRepr, listVal_padRepr] at this

theorem natDigits_length_le_two {n : Nat} (h : n < 100) : (natDigits n).length ≤ 2 := by
  by_cases h10 : n < 10
  · rw [natDigits_of_lt h10]; simp
  · rw [natDigits_of_ge h10]
    have hlt : n / 10 < 10 := by omega
    rw [natDigits_of_lt hlt]
    simp

theorem padRepr_data_length {n : Nat} (h : n < 100) :
    (padStart (Nat.repr n) 2 '0').data.length = 2 := by
  rw [padRepr_data]
  have := natDigits_length_le_two h
  simp [List.length_append, List.length_replicate]
  omega

theorem mkComplaintId_inj {y y' m m' k k' : Nat}
    (hm : m < 100) (hm' : m' < 100)
    (h : mkComplaintId y m k = mkComplaintId y' m' k') :
    y % 100 = y' % 100 ∧ m = m' ∧ k = k' := by
  have hd := congrArg String.data h
  simp only [mkComplaintId, String.data_append] at hd
  have hy100 : y % 100 < 100 := Nat.mod_lt _ (by omega)
  have hy100' : y' % 100 < 100 := Nat.mod_lt _ (by omega)
  -- peel the fixed-width segments from the left
  have l5 : ((((("CMP-".data ++ (padStart (Nat.repr (y % 100)) 2 '0').data) ++ "-".data)
      ++ (padStart (Nat.repr m) 2 '0').data) ++ "-".data)).length
      = ((((("CMP-".data ++ (padStart (Nat.repr (y' % 100)) 2 '0').data) ++ "-".data)
      ++ (padStart (Nat.repr m') 2 '0').data) ++ "-".data)).length := by
    simp [List.length_append, padRepr_data_length hy100, padRepr_data_length hy100',
      padRepr_data_length hm, padRepr_data_length hm']
  obtain ⟨h5, hk⟩ := List.append_inj hd l5
  have l4 : (((("CMP-".data ++ (padStart (Nat.repr (y % 100)) 2 '0').data) ++ "-".data)
      ++ (padStart (Nat.repr m) 2 '0').data)).length
      = (((("CMP-".data ++ (padStart (Nat.repr (y' % 100)) 2 '0').data) ++ "-".data)
      ++ (padStart (Nat.repr m') 2 '0').data)).length := by
    simp [List.length_append, padRepr_data_length hy100, padRepr_data_length hy100',
      padRepr_data_length hm, padRepr_data_length hm']
  obtain ⟨h4, _⟩ := List.append_inj h5 l4
  have l3 : ((("CMP-".data ++ (padStart (Nat.repr (y % 100)) 2 '0').data) ++ "-".data)).length
      = ((("CMP-".data ++ (padStart (Nat.repr (y' % 100)) 2 '0').data) ++ "-".data)).length := by
    simp [List.length_append, padRepr_data_length hy100, padRepr_data_length hy100']
  obtain ⟨h3, hmEq⟩ := List.append_inj h4 l3
  have l2 : (("CMP-".data ++ (padStart (Nat.repr (y % 100)) 2 '0').data)).length
      = (("CMP-".data ++ (padStart (Nat.repr (y' % 100)) 2 '0').data)).length := by
    simp [List.length_append, padRepr_data_length hy100, padRepr_data_length hy100']
  obtain ⟨h2, _⟩ := List.append_inj h3 l2
  have hyEq := List.append_cancel_left h2
  refine ⟨padRepr_data_inj hyEq, padRepr_data_inj hmEq, ?_⟩
  have := padRepr_data_inj hk
  omega

/-! ## Store lemmas -/

theorem findById_mid {db : List Complaint} {cid : Nat} {c : Complaint}
    (hf : findById db cid = some c) : c.mid = cid := by
  have := List.find?_some hf
  simpa using this

theorem findById_updateById {db : List Complaint} {cid : Nat} {c : Complaint}
    (c' : Complaint) (hf : findById db cid = some c) (hm : c'.mid = c.mid) :
    findById (updateById db c') cid = some c' := by
  have hcid : c.mid = cid := findById_mid hf
  induction db with
  | nil => simp [findById] at hf
  | cons x xs ih =>
    by_cases hx : x.mid = cid
    · rw [findById, List.find?_cons_of_pos _ (by simp [hx])] at hf
      have hxc : x = c := by injection hf
      rw [updateById, List.map_cons, if_pos (by simp [hm, hxc]), findById,
        List.find?_cons_of_pos _ (by simp [hm, hcid])]
    · rw [findById, List.find?_cons_of_neg _ (by simp [hx])] at hf
      rw [updateById, List.map_cons, if_neg (by simp [hm, hcid]; omega), findById,
        List.find?_cons_of_neg _ (by simp [hx])]
      exact ih hf

/-! ## Claim theorems -/

/-- C1: on a `resolved` complaint, submitFeedback with rating in [1,5]
branches on the threshold 3 — rating ≥ 3 closes (closedAt set), rating < 3
escalates with escalation.reason the comment (default text when empty)
and escalation.appellateAuthority the first approved superAdmin; the
boundary rating = 3 closes. -/
theorem C1_feedback_threshold
    (users : List User) (db : List Complaint) (cid rating : Nat) (comment : String)
    (actor now : Nat) (tok : Bool) (c : Complaint)
    (hfind : findById db cid = some c) (hres : c.status = Status.resolved)
    (h1 : 1 ≤ rating) (h5 : rating ≤ 5) :
    (3 ≤ rating →
      ∃ c', (svcSubmitFeedback users db cid rating comment actor now tok).result = Except.ok c'
        ∧ c'.status = Status.closed ∧ c'.closedAt = some now)
    ∧ (rating < 3 →
      ∃ c', (svcSubmitFeedback users db cid rating comment actor now tok).result = Except.ok c'
        ∧ c'.status = Status.escalated
        ∧ c'.escalation.reason =
            some (if comment = "" then "User not satisfied with resolution" else comment)
        ∧ c'.escalation.appellateAuthority = (firstApprovedSuperAdmin users).map User.uid)
    ∧ (rating = 3 →
      ∃ c', (svcSubmitFeedback users db cid rating comment actor now tok).result = Except.ok c'
        ∧ c'.status = Status.closed) := by
  refine ⟨?_, ?_, ?_⟩
  · intro hr
    simp only [svcSubmitFeedback, hfind, hres]
    rw [if_neg (by simp), if_pos hr]
    exact ⟨_, rfl, rfl, rfl⟩
  · intro hr
    simp only [svcSubmitFeedback, hfind, hres]
    rw [if_neg (by simp), if_neg (by omega)]
    cases hsa : firstApprovedSuperAdmin users with
    | some authority => exact ⟨_, rfl, rfl, rfl, rfl⟩
    | none => exact ⟨_, rfl, rfl, rfl, rfl⟩
  · intro hr
    simp only [svcSubmitFeedback, hfind, hres]
    rw [if_neg (by simp), if_pos (by omega)]
    exact ⟨_, rfl, rfl⟩

/-- Witness for C1 at a concrete input: rating 2 with empty comment on a
resolved fixture complaint escalates, with the default reason and the
first approved superAdmin (uid 1) as appellate authority. -/
theorem C1_feedback_threshold_witness :
    ∃ c', (svcSubmitFeedback usersFix [resolvedC] 100 2 "" 5 9 true).result = Except.ok c'
      ∧ c'.status = Status.escalated
      ∧ c'.escalation.reason = some "User not satisfied with resolution"
      ∧ c'.escalation.appellateAuthority = some 1 := by
  have h := C1_feedback_threshold usersFix [resolvedC] 100 2 "" 5 9 true resolvedC
    (by rfl) (by rfl) (by omega) (by omega)
  obtain ⟨c', hok, hst, hreason, happ⟩ := h.2.1 (by omega)
  refine ⟨c', hok, hst, ?_, ?_⟩
  · simpa using hreason
  · rw [happ]; rfl

/-- C4: resolve succeeds only from `assigned` (setting resolved fields and
adding one "resolved" history entry); from any other status it fails with
the invalid-state error and leaves the store unchanged; in particular a
second resolve on the result fails. -/
theorem C4_resolve_requires_assigned
    (db : List Complaint) (cid : Nat) (notes : String) (actor now : Nat) (tok : Bool)
    (c : Complaint) (hfind : findById db cid = some c) :
    (c.status = Status.assigned →
      ∃ c', (svcResolveComplaint db cid notes actor now tok).result = Except.ok c'
        ∧ c'.status = Status.resolved
        ∧ c'.resolvedAt = some now
        ∧ c'.resolutionNotes = some notes
        ∧ countHist c'.history Status.resolved = countHist c.history Status.resolved + 1
        ∧ ∀ notes' actor' now' tok',
            (svcResolveComplaint (svcResolveComplaint db cid notes actor now tok).db
              cid notes' actor' now' tok').result
              = Except.error "Complaint must be in assigned status to be resolved")
    ∧ (c.status ≠ Status.assigned →
        (svcResolveComplaint db cid notes actor now tok).result
          = Except.error "Complaint must be in assigned status to be resolved"
        ∧ (svcResolveComplaint db cid notes actor now tok).db = db) := by
  constructor
  · intro hstat
    simp only [svcResolveComplaint, hfind, hstat, ne_eq, not_true_eq_false, if_false,
      ite_false, reduceIte]
    refine ⟨_, rfl, rfl, rfl, rfl, ?_, ?_⟩
    · simp [countHist, List.filter_append]
    · intro notes' actor' now' tok'
      have hf2 := findById_updateById { c with
          status := Status.resolved
          resolvedAt := some now
          resolutionNotes := some notes
          history := c.history ++
            [{ hstatus := Status.resolved, updatedBy := actor, timestamp := now,
               notes := notes }] } hfind rfl
      simp only [svcResolveComplaint, hf2]
      rw [if_pos (by simp)]
  · intro hstat
    simp only [svcResolveComplaint, hfind]
    rw [if_pos hstat]
    exact ⟨rfl, rfl⟩

/-- Witness for C4 at a concrete input: resolving the assigned fixture
complaint succeeds with exactly one "resolved" history entry, and a
second resolve on the resulting store fails with the invalid-state
error. -/
theorem C4_resolve_requires_assigned_witness :
    ∃ c', (svcResolveComplaint [assignedC] 100 "done" 3 7 true).result = Except.ok c'
      ∧ c'.status = Status.resolved
      ∧ countHist c'.history Status.resolved = 1
      ∧ (svcResolveComplaint (svcResolveComplaint [assignedC] 100 "done" 3 7 true).db
          100 "again" 3 8 true).result
          = Except.error "Complaint must be in assigned status to be resolved" := by
  have h := (C4_resolve_requires_assigned [assignedC] 100 "done" 3 7 true assignedC
    (by rfl)).1 (by rfl)
  obtain ⟨c', hok, hst, _, _, hcount, htwice⟩ := h
  refine ⟨c', hok, hst, ?_, htwice "again" 3 8 true⟩
  rw [hcount]
  rfl

/-- C5: finalize succeeds only from `escalated`, setting
`finalResolution`, recording the final-resolution fields and closedAt and
appending exactly one history entry; from any other status (for example
`pending`) it fails with the invalid-state error and performs no
mutation. -/
theorem C5_finalize_requires_escalated
    (db : List Complaint) (cid : Nat) (resolution : String) (authorityId now : Nat)
    (tok : Bool) (c : Complaint) (hfind : findById db cid = some c) :
    (c.status = Status.escalated →
      ∃ c', (svcFinalizeComplaint db cid resolution authorityId now tok).result = Except.ok c'
        ∧ c'.status = Status.finalResolution
        ∧ c'.escalation.finalResolution = some resolution
        ∧ c'.escalation.finalResolvedAt = some now
        ∧ c'.closedAt = some now
        ∧ c'.history = c.history ++
            [{ hstatus := Status.finalResolution, updatedBy := authorityId,
               timestamp := now, notes := "Final resolution: " ++ resolution }])
    ∧ (c.status ≠ Status.escalated →
        (svcFinalizeComplaint db cid resolution authorityId now tok).result
          = Except.error "Only escalated complaints can receive final resolution"
        ∧ (svcFinalizeComplaint db cid resolution authorityId now tok).db = db) := by
  constructor
  · intro hstat
    simp only [svcFinalizeComplaint, hfind, hstat, ne_eq, not_true_eq_false, if_false,
      ite_false, reduceIte]
    exact ⟨_, rfl, rfl, rfl, rfl, rfl, rfl⟩
  · intro hstat
    simp only [svcFinalizeComplaint, hfind]
    rw [if_pos hstat]
    exact ⟨rfl, rfl⟩

/-- Witness for C5 at concrete inputs: finalizing an escalated fixture
complaint succeeds with the final-resolution fields set; finalizing the
pending fixture complaint fails with the invalid-state error and leaves
the store unchanged. -/
theorem C5_finalize_requires_escalated_witness :
    (∃ c', (svcFinalizeComplaint
        [{ resolvedC with status := Status.escalated }] 100 "repaired" 1 9 true).result
        = Except.ok c'
      ∧ c'.status = Status.finalResolution
      ∧ c'.closedAt = some 9)
    ∧ (svcFinalizeComplaint [pendingC] 100 "repaired" 1 9 true).result
        = Except.error "Only escalated complaints can receive final resolution"
    ∧ (svcFinalizeComplaint [pendingC] 100 "repaired" 1 9 true).db = [pendingC] := by
  constructor
  · obtain ⟨c', hok, hst, _, _, hclosed, _⟩ :=
      (C5_finalize_requires_escalated [{ resolvedC with status := Status.escalated }]
        100 "repaired" 1 9 true { resolvedC with status := Status.escalated }
        (by rfl)).1 (by rfl)
    exact ⟨c', hok, hst, hclosed⟩
  · exact (C5_finalize_requires_escalated [pendingC] 100 "repaired" 1 9 true pendingC
      (by rfl)).2 (by simp [pendingC])

/-- C6 counterexample: assignToStaff succeeds on the pending fixture
complaint whose assignedAgency is null — it sets assignedStaff while
assignedAgency stays null (refuting "succeeds only when assignedAgency is
already set" and the claimed invariant). -/
theorem C6_staff_requires_agency_counterexample :
    pendingC.assignedAgency = none
    ∧ (svcAssignToStaff usersFix [pendingC] 100 3 2 7 true).result.toOption.map
        (fun c => (c.assignedStaff, c.assignedAgency, c.status))
      = some (some 3, none, Status.pending) := by
  exact ⟨rfl, rfl⟩

/-- C6 amended: assignToStaff requires only that the complaint exists and
that staffId resolves to an approved maintenanceStaff — it does not check
assignedAgency. It sets assignedStaff, appends exactly one history entry
and never changes the status or assignedAgency; when the staff lookup
fails it errors and leaves the store unchanged. -/
theorem C6_staff_requires_agency_amended
    (users : List User) (db : List Complaint) (cid sid aid now : Nat) (tok : Bool)
    (c : Complaint) (hfind : findById db cid = some c) :
    (∀ st, findApprovedStaff users sid = some st →
      ∃ c', (svcAssignToStaff users db cid sid aid now tok).result = Except.ok c'
        ∧ c'.assignedStaff = some sid
        ∧ c'.status = c.status
        ∧ c'.assignedAgency = c.assignedAgency
        ∧ c'.history = c.history ++
            [{ hstatus := c.status, updatedBy := aid, timestamp := now,
               notes := "Assigned to staff: " ++ st.name }])
    ∧ (findApprovedStaff users sid = none →
        (svcAssignToStaff users db cid sid aid now tok).result
          = Except.error "Maintenance staff not found"
        ∧ (svcAssignToStaff users db cid sid aid now tok).db = db) := by
  constructor
  · intro st hst
    simp only [svcAssignToStaff, hfind, hst]
    exact ⟨_, rfl, rfl, rfl, rfl, rfl⟩
  · intro hst
    simp [svcAssignToStaff, hfind, hst]

/-- Witness for the amended C6 at a concrete input: assigning approved
staff (uid 3) on the pending fixture complaint succeeds, keeps the
status, and appends one history entry. -/
theorem C6_staff_requires_agency_amended_witness :
    ∃ c', (svcAssignToStaff usersFix [pendingC] 100 3 2 7 true).result = Except.ok c'
      ∧ c'.assignedStaff = some 3
      ∧ c'.status = pendingC.status
      ∧ c'.history.length = pendingC.history.length + 1 := by
  obtain ⟨c', hok, hstaff, hstat, _, hhist⟩ :=
    (C6_staff_requires_agency_amended usersFix [pendingC] 100 3 2 7 true pendingC
      (by rfl)).1 staffU (by rfl)
  refine ⟨c', hok, hstaff, hstat, ?_⟩
  rw [hhist]
  simp

/-- C2 counterexample: assignToAgency on the terminal `closed` fixture
complaint succeeds, moving its status to `assigned` and growing the
history — refuting "any attempt at a transition outside the graph fails
and leaves status and history unchanged". -/
theorem C2_transition_graph_counterexample :
    closedC.status = Status.closed
    ∧ (svcAssignComplaint usersFix [closedC] 100 2 1 9 true).result.toOption.map
        (fun c => (c.status, c.history.length))
      = some (Status.assigned, closedC.history.length + 1) := by
  exact ⟨rfl, rfl⟩

/-- C2 amended: resolve, submitFeedback and finalize follow the graph
(assigned → resolved → closed/escalated → finalResolution) and fail with
the store unchanged on an invalid source status; assignToStaff never
changes the status; but assignToAgency checks no status at all — from any
found complaint it moves to `assigned` once the agency resolves, so the
graph (and terminality of closed/finalResolution) is not enforced on that
operation. -/
theorem C2_transition_graph_amended
    (users : List User) (db : List Complaint) (cid actor now : Nat) (tok : Bool) :
    (∀ notes c', (svcResolveComplaint db cid notes actor now tok).result = Except.ok c' →
        (findById db cid).map Complaint.status = some Status.assigned
          ∧ c'.status = Status.resolved)
    ∧ (∀ rating comment c',
        (svcSubmitFeedback users db cid rating comment actor now tok).result = Except.ok c' →
        (findById db cid).map Complaint.status = some Status.resolved
          ∧ (c'.status = Status.closed ∨ c'.status = Status.escalated))
    ∧ (∀ resolution c',
        (svcFinalizeComplaint db cid resolution actor now tok).result = Except.ok c' →
        (findById db cid).map Complaint.status = some Status.escalated
          ∧ c'.status = Status.finalResolution)
    ∧ (∀ sid aid c', (svcAssignToStaff users db cid sid aid now tok).result = Except.ok c' →
        (findById db cid).map Complaint.status = some c'.status)
    ∧ (∀ agencyId c agency, findById db cid = some c →
        findApprovedAgency users agencyId = some agency →
        ∃ c', (svcAssignComplaint users db cid agencyId actor now tok).result = Except.ok c'
          ∧ c'.status = Status.assigned)
    ∧ (∀ notes e, (svcResolveComplaint db cid notes actor now tok).result = Except.error e →
        (svcResolveComplaint db cid notes actor now tok).db = db)
    ∧ (∀ rating comment e,
        (svcSubmitFeedback users db cid rating comment actor now tok).result = Except.error e →
        (svcSubmitFeedback users db cid rating comment actor now tok).db = db)
    ∧ (∀ resolution e,
        (svcFinalizeComplaint db cid resolution actor now tok).result = Except.error e →
        (svcFinalizeComplaint db cid resolution actor now tok).db = db)
    ∧ (∀ sid aid e,
        (svcAssignToStaff users db cid sid aid now tok).result = Except.error e →
        (svcAssignToStaff users db cid sid aid now tok).db = db)
    ∧ (∀ agencyId e,
        (svcAssignComplaint users db cid agencyId actor now tok).result = Except.error e →
        (svcAssignComplaint users db cid agencyId actor now tok).db = db) := by
  refine ⟨?_, ?_, ?_, ?_, ?_, ?_, ?_, ?_, ?_, ?_⟩
  · intro notes c' hok
    cases hf : findById db cid with
    | none => simp [svcResolveComplaint, hf] at hok
    | some c =>
      by_cases hs : c.status = Status.assigned
      · refine ⟨by simp [hs], ?_⟩
        simp only [svcResolveComplaint, hf] at hok
        rw [if_neg (by simp [hs])] at hok
        injection hok with h
        rw [← h]
      · simp only [svcResolveComplaint, hf] at hok
        rw [if_pos hs] at hok
        exact absurd hok (by simp)
  · intro rating comment c' hok
    cases hf : findById db cid with
    | none => simp [svcSubmitFeedback, hf] at hok
    | some c =>
      by_cases hs : c.status = Status.resolved
      · refine ⟨by simp [hs], ?_⟩
        simp only [svcSubmitFeedback, hf] at hok
        rw [if_neg (by simp [hs])] at hok
        by_cases hr : 3 ≤ rating
        · rw [if_pos hr] at hok
          injection hok with h
          rw [← h]
          exact Or.inl rfl
        · rw [if_neg hr] at hok
          cases hsa : firstApprovedSuperAdmin users with
          | some authority =>
            rw [hsa] at hok
            injection hok with h
            rw [← h]
            exact Or.inr rfl
          | none =>
            rw [hsa] at hok
            injection hok with h
            rw [← h]
            exact Or.inr rfl
      · simp only [svcSubmitFeedback, hf] at hok
        rw [if_pos hs] at hok
        exact absurd hok (by simp)
  · intro resolution c' hok
    cases hf : findById db cid with
    | none => simp [svcFinalizeComplaint, hf] at hok
    | some c =>
      by_cases hs : c.status = Status.escalated
      · refine ⟨by simp [hs], ?_⟩
        simp only [svcFinalizeComplaint, hf] at hok
        rw [if_neg (by simp [hs])] at hok
        injection hok with h
        rw [← h]
      · simp only [svcFinalizeComplaint, hf] at hok
        rw [if_pos hs] at hok
        exact absurd hok (by simp)
  · intro sid aid c' hok
    cases hf : findById db cid with
    | none => simp [svcAssignToStaff, hf] at hok
    | some c =>
      cases hst : findApprovedStaff users sid with
      | none => simp [svcAssignToStaff, hf, hst] at hok
      | some st =>
        simp only [svcAssignToStaff, hf, hst] at hok
        injection hok with h
        rw [← h]
        rfl
  · intro agencyId c agency hf hag
    simp only [svcAssignComplaint, hf, hag]
    exact ⟨_, rfl, rfl⟩
  · intro notes e herr
    cases hf : findById db cid with
    | none => simp [svcResolveComplaint, hf]
    | some c =>
      by_cases hs : c.status = Status.assigned
      · simp only [svcResolveComplaint, hf] at herr
        rw [if_neg (by simp [hs])] at herr
        exact absurd herr (by simp)
      · simp only [svcResolveComplaint, hf]
        rw [if_pos hs]
  · intro rating comment e herr
    cases hf : findById db cid with
    | none => simp [svcSubmitFeedback, hf]
    | some c =>
      by_cases hs : c.status = Status.resolved
      · simp only [svcSubmitFeedback, hf] at herr
        rw [if_neg (by simp [hs])] at herr
        by_cases hr : 3 ≤ rating
        · rw [if_pos hr] at herr
          exact absurd herr (by simp)
        · rw [if_neg hr] at herr
          cases hsa : firstApprovedSuperAdmin users with
          | some authority => rw [hsa] at herr; exact absurd herr (by simp)
          | none => rw [hsa] at herr; exact absurd herr (by simp)
      · simp only [svcSubmitFeedback, hf]
        rw [if_pos hs]
  · intro resolution e herr
    cases hf : findById db cid with
    | none => simp [svcFinalizeComplaint, hf]
    | some c =>
      by_cases hs : c.status = Status.escalated
      · simp only [svcFinalizeComplaint, hf] at herr
        rw [if_neg (by simp [hs])] at herr
        exact absurd herr (by simp)
      · simp only [svcFinalizeComplaint, hf]
        rw [if_pos hs]
  · intro sid aid e herr
    cases hf : findById db cid with
    | none => simp [svcAssignToStaff, hf]
    | some c =>
      cases hst : findApprovedStaff users sid with
      | none => simp [svcAssignToStaff, hf, hst]
      | some st =>
        simp [svcAssignToStaff, hf, hst] at herr
  · intro agencyId e herr
    cases hf : findById db cid with
    | none => simp [svcAssignComplaint, hf]
    | some c =>
      cases hag : findApprovedAgency users agencyId with
      | none => simp [svcAssignComplaint, hf, hag]
      | some agency =>
        simp [svcAssignComplaint, hf, hag] at herr

/-- Witness for the amended C2 at a concrete input: the checked
operations behave as in the graph (a resolve on the resolved fixture
fails with the store unchanged), while assignToAgency moves even the
closed fixture complaint to `assigned`. -/
theorem C2_transition_graph_amended_witness :
    ((svcResolveComplaint [resolvedC] 100 "n" 3 9 true).db = [resolvedC])
    ∧ ∃ c', (svcAssignComplaint usersFix [closedC] 100 2 1 9 true).result = Except.ok c'
        ∧ c'.status = Status.assigned := by
  constructor
  · exact (C2_transition_graph_amended usersFix [resolvedC] 100 3 9 true).2.2.2.2.2.1
      "n" "Complaint must be in assigned status to be resolved" (by rfl)
  · exact (C2_transition_graph_amended usersFix [closedC] 100 1 9 true).2.2.2.2.1
      2 closedC elecAdmin (by rfl) (by rfl)

/-- C3 counterexample: the scoping is not applied identically to
category-distribution — a departmentAdmin of "Electrical" gets a Civil
complaint counted (and listed as a category) in the distribution he
requests, because `getCategoryDistribution` never forces (nor even
accepts) a category filter. -/
theorem C3_query_scoping_counterexample :
    elecAdmin.role = Role.departmentAdmin
    ∧ elecAdmin.department = some "Electrical"
    ∧ civilC.category = "Civil"
    ∧ distributionFor elecAdmin {} [civilC] = [("Civil", 1)] := by
  exact ⟨rfl, rfl, rfl, rfl⟩

/-- C3 amended: a resident's forced reporter-scoping holds in listing,
stats and category-distribution; a departmentAdmin's forced
category-scoping holds in listing and stats — but category-distribution
applies no department scoping, so its counts are not category-scoped for
departmentAdmins. -/
theorem C3_query_scoping_amended
    (u : User) (q : QueryFilters) (db : List Complaint) (c : Complaint) :
    (u.role = Role.resident →
      (c ∈ listComplaintsFor u q db → c.userId = u.uid)
        ∧ (c ∈ statsDocsFor u q db → c.userId = u.uid)
        ∧ (distMatch (distScope u q) c = true → c.userId = u.uid))
    ∧ (∀ d, u.role = Role.departmentAdmin → u.department = some d →
        (c ∈ listComplaintsFor u q db → c.category = d)
          ∧ (c ∈ statsDocsFor u q db → c.category = d)) := by
  constructor
  · intro hrole
    refine ⟨?_, ?_, ?_⟩
    · intro hc
      have h := (List.mem_filter.mp hc).2
      simp [listScope, hrole, withCommonFilters, listMatch] at h
      tauto
    · intro hc
      have h := (List.mem_filter.mp hc).2
      simp [statsScope, hrole, withCommonFilters, statsMatch] at h
      tauto
    · intro h
      simp [distScope, hrole, withCommonFilters, distMatch] at h
      tauto
  · intro d hrole hdept
    constructor
    · intro hc
      have h := (List.mem_filter.mp hc).2
      simp [listScope, hrole, hdept, withCommonFilters, listMatch] at h
      tauto
    · intro hc
      have h := (List.mem_filter.mp hc).2
      simp [statsScope, hrole, hdept, withCommonFilters, statsMatch] at h
      tauto

/-- Witness for the amended C3 at a concrete input: residentA's listing
with a spoofed userId filter still only matches residentA's own
complaint, and the theorem yields its reporter equality. -/
theorem C3_query_scoping_amended_witness :
    pendingC ∈ listComplaintsFor residentA { userId := some 5 } [pendingC]
    ∧ pendingC.userId = residentA.uid := by
  have hmem : pendingC ∈ listComplaintsFor residentA { userId := some 5 } [pendingC] := by
    decide
  exact ⟨hmem,
    ((C3_query_scoping_amended residentA { userId := some 5 } [pendingC] pendingC).1
      rfl).1 hmem⟩

/-- C7 counterexample: a subcategory foreign to the chosen category's
defined set ("Plumbing" is a Civil subcategory, not an Electrical one)
passes validation, and the complaint is created in status `pending` —
refuting "fails with ValidationError … on a subcategory that is not in
the chosen category's defined set". -/
theorem C7_submit_validation_counterexample :
    validateCreate crossBody = Except.ok ()
    ∧ ¬ ("Plumbing" ∈ subcategoriesOf "Electrical")
    ∧ (routeCreateComplaint usersFix [] crossBody residentA 100 2025 7 0
        true).result.toOption.map (fun c => (c.status, c.subcategory, c.history.length))
      = some (Status.pending, "Plumbing", 1) := by
  refine ⟨rfl, by decide, rfl⟩

/-- C7 amended: creation validation succeeds exactly when the resourceId
is present, the category is one of the three known names, the subcategory
is non-empty, the description is non-empty and at most 1000 characters,
and at most 2 images are supplied — membership of the subcategory in the
category's set is not checked. On success a `pending` complaint with a
single initial history entry is appended; on a validation error nothing
is created. -/
theorem C7_submit_validation_amended (b : CreateBody)
    (users : List User) (db : List Complaint) (user : User) (midNew y m now : Nat)
    (tok : Bool) :
    (validateCreate b = Except.ok () ↔
      (b.resourceId.isSome ∧ b.category ∈ categoryNames ∧ b.subcategory ≠ ""
        ∧ b.description ≠ "" ∧ b.description.length ≤ 1000 ∧ b.images.length ≤ 2))
    ∧ (validateCreate b = Except.ok () →
        ∃ c', (routeCreateComplaint users db b user midNew y m now tok).result = Except.ok c'
          ∧ c'.status = Status.pending
          ∧ c'.history.length = 1
          ∧ (routeCreateComplaint users db b user midNew y m now tok).db = db ++ [c'])
    ∧ (∀ e, validateCreate b = Except.error e →
        (routeCreateComplaint users db b user midNew y m now tok).result = Except.error e
          ∧ (routeCreateComplaint users db b user midNew y m now tok).db = db) := by
  refine ⟨?_, ?_, ?_⟩
  · simp only [validateCreate]
    split_ifs with h1 h2 h3 h4 h5 <;>
      simp_all [Option.isNone_iff_eq_none, Option.isSome_iff_ne_none, Nat.not_lt, not_or]
    intro hd hl
    rcases h4 with h | h
    · exact absurd h hd
    · omega
  · intro hval
    simp only [routeCreateComplaint, hval]
    exact ⟨_, rfl, rfl, rfl, rfl⟩
  · intro e herr
    simp [routeCreateComplaint, herr]

/-- Witness for the amended C7 at a concrete input: a fully valid body
creates a pending complaint with one history entry. -/
theorem C7_submit_validation_amended_witness :
    ∃ c', (routeCreateComplaint usersFix [] validBody residentA 100 2025 7 0
        true).result = Except.ok c'
      ∧ c'.status = Status.pending
      ∧ c'.history.length = 1 := by
  obtain ⟨c', hok, hst, hlen, _⟩ :=
    (C7_submit_validation_amended validBody usersFix [] residentA
      100 2025 7 0 true).2.1 (by rfl)
  exact ⟨c', hok, hst, hlen⟩

/-- C9 counterexample: notification dispatch does not happen strictly
after the transaction commit — in submitFeedback the agency notification
is dispatched before the save and the commit, so the trace has a notify
event before the commit event. -/
theorem C9_notify_after_commit_counterexample :
    dispatchStrictlyAfterCommit
      (svcSubmitFeedback usersFix [resolvedC] 100 5 "great" 4 9 true).events = false := by
  rfl

/-- C9 amended: dispatch happens inside the transaction — after the
in-memory mutation and history append but before the commit (the commit
is the last event of every trace; in submitFeedback dispatch even
precedes the save) — and the committed result and store are independent
of the notification transport outcome, because `sendNotification`
returns `false` on failure instead of throwing. -/
theorem C9_notification_boundary_amended
    (users : List User) (db : List Complaint) (cid rating agencyId sid aid actor now : Nat)
    (comment notes resolution : String) :
    (∀ tok tok',
      (svcAssignComplaint users db cid agencyId actor now tok).result
          = (svcAssignComplaint users db cid agencyId actor now tok').result
        ∧ (svcAssignComplaint users db cid agencyId actor now tok).db
          = (svcAssignComplaint users db cid agencyId actor now tok').db)
    ∧ (∀ tok tok',
      (svcAssignToStaff users db cid sid aid now tok).result
          = (svcAssignToStaff users db cid sid aid now tok').result
        ∧ (svcAssignToStaff users db cid sid aid now tok).db
          = (svcAssignToStaff users db cid sid aid now tok').db)
    ∧ (∀ tok tok',
      (svcResolveComplaint db cid notes actor now tok).result
          = (svcResolveComplaint db cid notes actor now tok').result
        ∧ (svcResolveComplaint db cid notes actor now tok).db
          = (svcResolveComplaint db cid notes actor now tok').db)
    ∧ (∀ tok tok',
      (svcSubmitFeedback users db cid rating comment actor now tok).result
          = (svcSubmitFeedback users db cid rating comment actor now tok').result
        ∧ (svcSubmitFeedback users db cid rating comment actor now tok).db
          = (svcSubmitFeedback users db cid rating comment actor now tok').db)
    ∧ (∀ tok tok',
      (svcFinalizeComplaint db cid resolution actor now tok).result
          = (svcFinalizeComplaint db cid resolution actor now tok').result
        ∧ (svcFinalizeComplaint db cid resolution actor now tok).db
          = (svcFinalizeComplaint db cid resolution actor now tok').db)
    ∧ (∀ tok, (svcAssignComplaint users db cid agencyId actor now tok).events ≠ [] →
        (svcAssignComplaint users db cid agencyId actor now tok).events.getLast?
          = some Event.commitTx)
    ∧ (∀ tok, (svcAssignToStaff users db cid sid aid now tok).events ≠ [] →
        (svcAssignToStaff users db cid sid aid now tok).events.getLast?
          = some Event.commitTx)
    ∧ (∀ tok, (svcResolveComplaint db cid notes actor now tok).events ≠ [] →
        (svcResolveComplaint db cid notes actor now tok).events.getLast?
          = some Event.commitTx)
    ∧ (∀ tok, (svcSubmitFeedback users db cid rating comment actor now tok).events ≠ [] →
        (svcSubmitFeedback users db cid rating comment actor now tok).events.getLast?
          = some Event.commitTx)
    ∧ (∀ tok, (svcFinalizeComplaint db cid resolution actor now tok).events ≠ [] →
        (svcFinalizeComplaint db cid resolution actor now tok).events.getLast?
          = some Event.commitTx) := by
  refine ⟨?_, ?_, ?_, ?_, ?_, ?_, ?_, ?_, ?_, ?_⟩
  · intro tok tok'
    cases hf : findById db cid with
    | none => simp [svcAssignComplaint, hf]
    | some c => cases hag : findApprovedAgency users agencyId <;>
        simp [svcAssignComplaint, hf, hag]
  · intro tok tok'
    cases hf : findById db cid with
    | none => simp [svcAssignToStaff, hf]
    | some c => cases hst : findApprovedStaff users sid <;>
        simp [svcAssignToStaff, hf, hst]
  · intro tok tok'
    cases hf : findById db cid with
    | none => simp [svcResolveComplaint, hf]
    | some c =>
      by_cases hs : c.status = Status.assigned <;> simp [svcResolveComplaint, hf, hs]
  · intro tok tok'
    cases hf : findById db cid with
    | none => simp [svcSubmitFeedback, hf]
    | some c =>
      by_cases hs : c.status = Status.resolved
      · by_cases hr : 3 ≤ rating
        · simp [svcSubmitFeedback, hf, hs, hr]
        · cases hsa : firstApprovedSuperAdmin users <;>
            simp [svcSubmitFeedback, hf, hs, hr, hsa]
      · simp [svcSubmitFeedback, hf, hs]
  · intro tok tok'
    cases hf : findById db cid with
    | none => simp [svcFinalizeComplaint, hf]
    | some c =>
      by_cases hs : c.status = Status.escalated <;> simp [svcFinalizeComplaint, hf, hs]
  · intro tok hne
    cases hf : findById db cid with
    | none => simp [svcAssignComplaint, hf] at hne
    | some c =>
      cases hag : findApprovedAgency users agencyId with
      | none => simp [svcAssignComplaint, hf, hag] at hne
      | some agency => simp only [svcAssignComplaint, hf, hag]; rfl
  · intro tok hne
    cases hf : findById db cid with
    | none => simp [svcAssignToStaff, hf] at hne
    | some c =>
      cases hst : findApprovedStaff users sid with
      | none => simp [svcAssignToStaff, hf, hst] at hne
      | some st => simp only [svcAssignToStaff, hf, hst]; rfl
  · intro tok hne
    cases hf : findById db cid with
    | none => simp [svcResolveComplaint, hf] at hne
    | some c =>
      by_cases hs : c.status = Status.assigned
      · simp only [svcResolveComplaint, hf]
        rw [if_neg (by simp [hs])]
        rfl
      · simp [svcResolveComplaint, hf, hs] at hne
  · intro tok hne
    cases hf : findById db cid with
    | none => simp [svcSubmitFeedback, hf] at hne
    | some c =>
      by_cases hs : c.status = Status.resolved
      · simp only [svcSubmitFeedback, hf]
        rw [if_neg (by simp [hs])]
        by_cases hr : 3 ≤ rating
        · rw [if_pos hr]; rfl
        · rw [if_neg hr]
          cases hsa : firstApprovedSuperAdmin users with
          | some authority => rfl
          | none => rfl
      · simp [svcSubmitFeedback, hf, hs] at hne
  · intro tok hne
    cases hf : findById db cid with
    | none => simp [svcFinalizeComplaint, hf] at hne
    | some c =>
      by_cases hs : c.status = Status.escalated
      · simp only [svcFinalizeComplaint, hf]
        rw [if_neg (by simp [hs])]
        rfl
      · simp [svcFinalizeComplaint, hf, hs] at hne

/-- Witness for the amended C9 at a concrete input: an assignment's
result and store are the same whether the notification transport
succeeds or fails, and its trace ends with the commit. -/
theorem C9_notification_boundary_amended_witness :
    ((svcAssignComplaint usersFix [pendingC] 100 2 1 5 true).result
        = (svcAssignComplaint usersFix [pendingC] 100 2 1 5 false).result)
    ∧ (svcAssignComplaint usersFix [pendingC] 100 2 1 5 true).events.getLast?
        = some Event.commitTx := by
  have h := C9_notification_boundary_amended usersFix [pendingC] 100 3 2 3 2 1 5
    "c" "n" "r"
  exact ⟨(h.1 true false).1, h.2.2.2.2.2.1 true (by decide)⟩

/-- C10: submitFeedback performs no ownership check — any principal
passing the resident role gate with an in-range rating can submit
feedback on any resolved complaint (including one reported by a
different resident), and, actor identity aside (it is recorded only as
history-entry actor), the outcome depends only on the complaint's prior
state and the (rating, comment) input. -/
theorem C10_feedback_no_ownership
    (users : List User) (db : List Complaint) (cid rating : Nat) (comment : String)
    (u : User) (now : Nat) (tok : Bool) (c : Complaint)
    (hrole : u.role = Role.resident) (h1 : 1 ≤ rating) (h5 : rating ≤ 5)
    (hfind : findById db cid = some c) (hres : c.status = Status.resolved) :
    (∃ c', (routeSubmitFeedback users db cid rating comment u now tok).result = Except.ok c')
    ∧ (∀ u', u'.role = Role.resident →
        Except.map scrubActors (routeSubmitFeedback users db cid rating comment u now tok).result
          = Except.map scrubActors
              (routeSubmitFeedback users db cid rating comment u' now tok).result) := by
  have hgate : checkRole [Role.resident] u = true := by simp [checkRole, hrole]
  have hrt : ¬ (rating < 1 ∨ rating > 5) := by omega
  constructor
  · simp only [routeSubmitFeedback]
    rw [if_neg (by simp [hgate]), if_neg hrt]
    simp only [svcSubmitFeedback, hfind]
    rw [if_neg (by simp [hres])]
    by_cases hr : 3 ≤ rating
    · rw [if_pos hr]; exact ⟨_, rfl⟩
    · rw [if_neg hr]
      cases hsa : firstApprovedSuperAdmin users with
      | some authority => exact ⟨_, rfl⟩
      | none => exact ⟨_, rfl⟩
  · intro u' hrole'
    have hgate' : checkRole [Role.resident] u' = true := by simp [checkRole, hrole']
    have hrt0 : ¬ (rating = 0 ∨ 5 < rating) := by omega
    by_cases hr : 3 ≤ rating
    · simp [routeSubmitFeedback, hgate, hgate', hrt, hrt0, svcSubmitFeedback, hfind, hres,
        hr, scrubActors, Except.map, List.map_append]
    · cases hsa : firstApprovedSuperAdmin users <;>
        simp [routeSubmitFeedback, hgate, hgate', hrt, hrt0, svcSubmitFeedback, hfind, hres,
          hr, hsa, scrubActors, Except.map, List.map_append]

/-- Witness for C10 at a concrete input: residentB (uid 5), who did not
report the resolved fixture complaint (reporter uid 4), successfully
submits feedback on it. -/
theorem C10_feedback_no_ownership_witness :
    residentB.uid ≠ resolvedC.userId
    ∧ ∃ c', (routeSubmitFeedback usersFix [resolvedC] 100 4 "ok" residentB 9 true).result
        = Except.ok c' := by
  refine ⟨by decide, ?_⟩
  exact (C10_feedback_no_ownership usersFix [resolvedC] 100 4 "ok" residentB 9 true
    resolvedC rfl (by omega) (by omega) (by rfl) (by rfl)).1

/-! ## Identifier-uniqueness invariant lemmas -/

theorem monthCount_append (db : List Complaint) (c0 : Complaint) (y m : Nat) :
    monthCount (db ++ [c0]) y m
      = monthCount db y m + (if c0.createdYear = y ∧ c0.createdMonth = m then 1 else 0) := by
  by_cases hy : c0.createdYear = y <;> by_cases hm : c0.createdMonth = m <;>
    simp [monthCount, List.filter_append, hy, hm]

theorem goodDb_nil : GoodDb [] := by
  refine ⟨?_, ?_, ?_, ?_⟩ <;> simp [GoodDb]

theorem goodDb_step (users : List User) (db : List Complaint)
    (rid : Nat) (cat sub desc : String) (imgs : List String) (user : User)
    (midNew y m now : Nat) (tok : Bool)
    (hdb : GoodDb db) (hm : m < 100)
    (hcent : ∀ c ∈ db, c.createdYear % 100 = y % 100 → c.createdYear = y) :
    GoodDb (svcCreateComplaint users db rid cat sub desc imgs user midNew y m now tok).db := by
  obtain ⟨hmon, hform, hpair, hcen⟩ := hdb
  show GoodDb (db ++ [mkNewComplaint db rid cat sub desc imgs user midNew y m now])
  set c0 := mkNewComplaint db rid cat sub desc imgs user midNew y m now with hc0
  have hc0y : c0.createdYear = y := rfl
  have hc0m : c0.createdMonth = m := rfl
  have hc0id : c0.complaintId = mkComplaintId y m (monthCount db y m) := rfl
  refine ⟨?_, ?_, ?_, ?_⟩
  · intro c hc
    rcases List.mem_append.mp hc with h | h
    · exact hmon c h
    · rw [List.mem_singleton.mp h, hc0m]; exact hm
  · intro c hc
    rcases List.mem_append.mp hc with h | h
    · obtain ⟨k, hk, hid⟩ := hform c h
      refine ⟨k, ?_, hid⟩
      rw [monthCount_append]
      omega
    · rw [List.mem_singleton.mp h]
      refine ⟨monthCount db y m, ?_, by rw [hc0y, hc0m, hc0id]⟩
      rw [hc0y, hc0m, monthCount_append, if_pos ⟨hc0y, hc0m⟩]
      omega
  · rw [List.pairwise_append]
    refine ⟨hpair, by simp, ?_⟩
    intro a ha b hb
    rw [List.mem_singleton.mp hb]
    obtain ⟨k, hk, hid⟩ := hform a ha
    intro heq
    rw [hid, hc0id] at heq
    obtain ⟨hy100, hmm, hkk⟩ :=
      mkComplaintId_inj (hmon a ha) hm heq
    have hay : a.createdYear = y := hcent a ha hy100
    rw [hay, hmm] at hk
    omega
  · intro a ha b hb
    rcases List.mem_append.mp ha with ha' | ha' <;>
      rcases List.mem_append.mp hb with hb' | hb'
    · exact hcen a ha' b hb'
    · rw [List.mem_singleton.mp hb', hc0y]
      intro h
      exact hcent a ha' h
    · rw [List.mem_singleton.mp ha', hc0y]
      intro h
      have := hcent b hb' h.symm
      omega
    · rw [List.mem_singleton.mp ha', List.mem_singleton.mp hb']
      intro _
      rfl

theorem buildDb_goodDb (users : List User) (reqs : List CreateReq) :
    ∀ db : List Complaint, GoodDb db →
    (∀ r ∈ reqs, r.cmonth < 100) →
    (∀ r ∈ reqs, ∀ c ∈ db, c.createdYear % 100 = r.cyear % 100 → c.createdYear = r.cyear) →
    (∀ r ∈ reqs, ∀ r' ∈ reqs, r.cyear % 100 = r'.cyear % 100 → r.cyear = r'.cyear) →
    GoodDb (buildDb users db reqs) := by
  induction reqs with
  | nil => intro db hdb _ _ _; exact hdb
  | cons r rs ih =>
    intro db hdb hm hc1 hc2
    rw [buildDb]
    apply ih
    · exact goodDb_step users db r.resourceId r.category r.subcategory r.description
        r.images r.user r.mid r.cyear r.cmonth r.ctime r.tok hdb
        (hm r (List.mem_cons_self r rs))
        (fun c hc => hc1 r (List.mem_cons_self r rs) c hc)
    · exact fun r' hr' => hm r' (List.mem_cons_of_mem r hr')
    · intro r' hr' c hc
      rcases List.mem_append.mp hc with hcdb | hc0
      · exact hc1 r' (List.mem_cons_of_mem r hr') c hcdb
      · rw [List.mem_singleton.mp hc0]
        intro h
        exact hc2 r (List.mem_cons_self r rs) r' (List.mem_cons_of_mem r hr') h
    · exact fun a ha b hb => hc2 a (List.mem_cons_of_mem r ha) b (List.mem_cons_of_mem r hb)

/-- C8: at creation the identifier is `CMP-YY-MM-NNNN` with `NNNN` the
count of complaints already created in that calendar month plus one
(zero-padded); the first complaint of a month gets suffix 0001;
identifiers over any creation sequence are pairwise distinct (months
being 1–12 and two-digit years unambiguous); and no lifecycle operation
ever changes a complaint's identifier. -/
theorem C8_identifier (users : List User) (db : List Complaint)
    (rid : Nat) (cat sub desc : String) (imgs : List String) (user : User)
    (midNew y m now : Nat) (tok : Bool) (reqs : List CreateReq) :
    ((svcCreateComplaint users db rid cat sub desc imgs user midNew y m now tok).result.toOption.map
        Complaint.complaintId = some (mkComplaintId y m (monthCount db y m)))
    ∧ (monthCount db y m = 0 →
        (svcCreateComplaint users db rid cat sub desc imgs user midNew y m now
            tok).result.toOption.map Complaint.complaintId
          = some ("CMP-" ++ padStart (Nat.repr (y % 100)) 2 '0' ++ "-"
              ++ padStart (Nat.repr m) 2 '0' ++ "-" ++ "0001"))
    ∧ ((∀ r ∈ reqs, r.cmonth < 100) →
       (∀ r ∈ reqs, ∀ r' ∈ reqs, r.cyear % 100 = r'.cyear % 100 → r.cyear = r'.cyear) →
       List.Pairwise (fun a b => a.complaintId ≠ b.complaintId) (buildDb users [] reqs))
    ∧ (∀ cid agencyId actor c',
        (svcAssignComplaint users db cid agencyId actor now tok).result = Except.ok c' →
        (findById db cid).map Complaint.complaintId = some c'.complaintId)
    ∧ (∀ cid sid aid c',
        (svcAssignToStaff users db cid sid aid now tok).result = Except.ok c' →
        (findById db cid).map Complaint.complaintId = some c'.complaintId)
    ∧ (∀ cid notes actor c',
        (svcResolveComplaint db cid notes actor now tok).result = Except.ok c' →
        (findById db cid).map Complaint.complaintId = some c'.complaintId)
    ∧ (∀ cid rating comment actor c',
        (svcSubmitFeedback users db cid rating comment actor now tok).result = Except.ok c' →
        (findById db cid).map Complaint.complaintId = some c'.complaintId)
    ∧ (∀ cid resolution actor c',
        (svcFinalizeComplaint db cid resolution actor now tok).result = Except.ok c' →
        (findById db cid).map Complaint.complaintId = some c'.complaintId) := by
  refine ⟨rfl, ?_, ?_, ?_, ?_, ?_, ?_, ?_⟩
  · intro h0
    show some (mkComplaintId y m (monthCount db y m)) = _
    rw [h0, mkComplaintId]
    have hpad : padStart (Nat.repr (0 + 1)) 4 '0' = "0001" := by rfl
    rw [hpad]
  · intro hmreq hcent
    exact (buildDb_goodDb users reqs [] goodDb_nil hmreq (by simp) hcent).2.2.1
  · intro cid agencyId actor c' hok
    cases hf : findById db cid with
    | none => simp [svcAssignComplaint, hf] at hok
    | some c =>
      cases hag : findApprovedAgency users agencyId with
      | none => simp [svcAssignComplaint, hf, hag] at hok
      | some agency =>
        simp only [svcAssignComplaint, hf, hag] at hok
        injection hok with h
        rw [← h]
        rfl
  · intro cid sid aid c' hok
    cases hf : findById db cid with
    | none => simp [svcAssignToStaff, hf] at hok
    | some c =>
      cases hst : findApprovedStaff users sid with
      | none => simp [svcAssignToStaff, hf, hst] at hok
      | some st =>
        simp only [svcAssignToStaff, hf, hst] at hok
        injection hok with h
        rw [← h]
        rfl
  · intro cid notes actor c' hok
    cases hf : findById db cid with
    | none => simp [svcResolveComplaint, hf] at hok
    | some c =>
      by_cases hs : c.status = Status.assigned
      · simp only [svcResolveComplaint, hf] at hok
        rw [if_neg (by simp [hs])] at hok
        injection hok with h
        rw [← h]
        rfl
      · simp only [svcResolveComplaint, hf] at hok
        rw [if_pos hs] at hok
        exact absurd hok (by simp)
  · intro cid rating comment actor c' hok
    cases hf : findById db cid with
    | none => simp [svcSubmitFeedback, hf] at hok
    | some c =>
      by_cases hs : c.status = Status.resolved
      · simp only [svcSubmitFeedback, hf] at hok
        rw [if_neg (by simp [hs])] at hok
        by_cases hr : 3 ≤ rating
        · rw [if_pos hr] at hok
          injection hok with h
          rw [← h]
          rfl
        · rw [if_neg hr] at hok
          cases hsa : firstApprovedSuperAdmin users with
          | some authority =>
            rw [hsa] at hok
            injection hok with h
            rw [← h]
            rfl
          | none =>
            rw [hsa] at hok
            injection hok with h
            rw [← h]
            rfl
      · simp only [svcSubmitFeedback, hf] at hok
        rw [if_pos hs] at hok
        exact absurd hok (by simp)
  · intro cid resolution actor c' hok
    cases hf : findById db cid with
    | none => simp [svcFinalizeComplaint, hf] at hok
    | some c =>
      by_cases hs : c.status = Status.escalated
      · simp only [svcFinalizeComplaint, hf] at hok
        rw [if_neg (by simp [hs])] at hok
        injection hok with h
        rw [← h]
        rfl
      · simp only [svcFinalizeComplaint, hf] at hok
        rw [if_pos hs] at hok
        exact absurd hok (by simp)

/-- Witness for C8 at concrete inputs: the first July-2025 complaint in
an empty store gets identifier `CMP-25-07-0001`, and a three-creation
sequence (two in July, one in August 2025) yields pairwise-distinct
identifiers. -/
theorem C8_identifier_witness :
    ((svcCreateComplaint usersFix [] 50 "Electrical" "Lighting" "d" [] residentA 200 2025 7 0
        true).result.toOption.map Complaint.complaintId = some "CMP-25-07-0001")
    ∧ List.Pairwise (fun a b => a.complaintId ≠ b.complaintId)
        (buildDb usersFix [] [reqA, reqB, reqC]) := by
  constructor
  · have h := (C8_identifier usersFix [] 50 "Electrical" "Lighting" "d" [] residentA 200 2025
      7 0 true []).2.1 rfl
    rw [h]
    rfl
  · exact (C8_identifier usersFix [] 50 "Electrical" "Lighting" "d" [] residentA 200 2025 7 0
      true [reqA, reqB, reqC]).2.2.1 (by decide) (by decide)

end NFC
